import Mathlib

/-!
Verification of the RDMnetBroker configuration loader
(src/core/broker_config.cpp) against its specification.

The development shallowly embeds the JSON data model used by the loader,
the per-field validators, the settings validator table and the
`ValidateCurrent` driver loop, and proves the spec claims about them.
-/

/-- The subset of JSON value kinds the loader distinguishes
(nlohmann json value_t tags relevant to this code). -/
inductive JsonType where
  | null
  | string
  | boolean
  | numberInteger
  | numberUnsigned
  | array
  | object
deriving DecidableEq, Repr

/-- Shallow embedding of the JSON documents the loader consumes.
Non-negative integer literals parse as unsigned numbers, negative ones as
signed integers, mirroring nlohmann json. Objects are association lists
keyed by the first occurrence. -/
inductive Json where
  | null : Json
  | boolean : Bool → Json
  | str : String → Json
  | intNum : Int → Json
  | uintNum : Nat → Json
  | arr : List Json → Json
  | obj : List (String × Json) → Json

/-- The value_t tag of a JSON value. -/
def Json.typeOf : Json → JsonType
  | .null => .null
  | .boolean _ => .boolean
  | .str _ => .string
  | .intNum _ => .numberInteger
  | .uintNum _ => .numberUnsigned
  | .arr _ => .array
  | .obj _ => .object

/-- Member lookup in an object association list (first match). -/
def assocLookup (k : String) : List (String × Json) → Option Json
  | [] => none
  | (k₂, v) :: rest => if k₂ = k then some v else assocLookup k rest

/-- `j.lookup k` is the member `k` of object `j`, when present. -/
def Json.lookup (j : Json) (k : String) : Option Json :=
  match j with
  | .obj fields => assocLookup k fields
  | _ => none

/-- `val.contains(k)` for an object member key. -/
def Json.containsKey (j : Json) (k : String) : Bool :=
  (j.lookup k).isSome

/-- `val[k]` under a `contains` guard; absent members read as null
(never reached unguarded in the embedded code). -/
def Json.get (j : Json) (k : String) : Json :=
  (j.lookup k).getD .null

/-- JSON-pointer resolution: `resolve j p` is the value at path `p`,
or none when the path does not resolve.  `contains(pointer)` is
`(resolve j p).isSome` and `j[pointer]` is the resolved value. -/
def Json.resolve : Json → List String → Option Json
  | j, [] => some j
  | .obj fields, k :: rest =>
      match assocLookup k fields with
      | some v => Json.resolve v rest
      | none => none
  | _, _ :: _ => none

/-- The implicit json→std::string conversion (guarded by string checks). -/
def Json.asString : Json → String
  | .str s => s
  | _ => ""

/-- The json→int64_t conversion: signed values read back directly,
unsigned values are static_cast to int64_t (wrapping above 2^63). -/
def Json.asInt64 : Json → Int
  | .intNum i => i
  | .uintNum n => if n < 2 ^ 63 then (n : Int) else (n : Int) - 2 ^ 64
  | _ => 0

/-- The json→std::vector of json conversion for an array value. -/
def Json.asArray : Json → List Json
  | .arr xs => xs
  | _ => []

/-- `val.is_null()`. -/
def Json.isNull : Json → Bool
  | .null => true
  | _ => false

/-- `val.is_string()`. -/
def Json.isStr : Json → Bool
  | .str _ => true
  | _ => false

/-- `val.is_number_integer()`: true for both signed and unsigned
integer-valued JSON numbers, as in nlohmann json. -/
def Json.isNumberInteger : Json → Bool
  | .intNum _ => true
  | .uintNum _ => true
  | _ => false

/-! ## The Settings Record

Modelled from the spec: the record type `rdmnet::BrokerSettings` and the
`BrokerConfig` class declaration live in headers not present under `src/`;
the field set and the two-variant addressing union follow the spec's data
model section, and the stored scalar representations are abstracted
(UUIDs, MAC addresses and IP addresses are carried as naturals, with `0`
playing the role of the null/invalid value as in etcpal). -/

/-- The addressing (UID) field: a closed two-variant tagged union. -/
inductive StoredUid where
  | staticUid (manu : Nat) (deviceId : Nat)
  | dynamicUid (manu : Nat)
deriving DecidableEq, Repr

/-- The DNS-SD sub-record (`settings.dns`). -/
structure DnsSdSettings where
  service_instance_name : String
  manufacturer : String
  model : String
deriving DecidableEq, Repr

/-- The validated output settings record. -/
structure BrokerSettings where
  cid : Nat
  uid : StoredUid
  dns : DnsSdSettings
  scope : String
  listen_port : Nat
  listen_macs : Finset Nat
  listen_addrs : Finset Nat
  max_connections : Nat
  max_controllers : Nat
  max_controller_messages : Nat
  max_devices : Nat
  max_device_messages : Nat
  max_reject_connections : Nat
deriving DecidableEq

/-- `settings.SetStaticUid(uid)`. -/
def BrokerSettings.SetStaticUid (s : BrokerSettings) (manu deviceId : Nat) : BrokerSettings :=
  { s with uid := .staticUid manu deviceId }

/-- `settings.SetDynamicUid(manu_id)`. -/
def BrokerSettings.SetDynamicUid (s : BrokerSettings) (manu : Nat) : BrokerSettings :=
  { s with uid := .dynamicUid manu }

/-- Modelled from the spec: the default-constructed settings record, with
its baked-in defaults (the concrete default values are irrelevant to every
claim; what matters is that construction is deterministic). -/
def defaultBrokerSettings : BrokerSettings where
  cid := 0
  uid := .dynamicUid 0
  dns := { service_instance_name := "", manufacturer := "", model := "" }
  scope := "default"
  listen_port := 0
  listen_macs := ∅
  listen_addrs := ∅
  max_connections := 0
  max_controllers := 0
  max_controller_messages := 0
  max_devices := 0
  max_device_messages := 0
  max_reject_connections := 0

/-- The external etcpal string-parsing primitives the validators call.
These live outside this repository; the development is parameterised over
them.  A result of `0` models the null UUID / null MacAddr / invalid
IpAddr those APIs return on unparseable input. -/
structure Parsers where
  uuidFromString : String → Nat
  macFromString : String → Nat
  ipFromString : String → Nat
  uuidToString : Nat → String

/-- The `BrokerConfig` object: the settings being populated plus the
per-instance generated default identity (`default_cid()`).
Modelled from the spec: the class declaration is not under `src/`; the
spec describes a freshly generated identity baked in at construction. -/
structure BrokerConfig where
  settings : BrokerSettings
  default_cid : Nat
deriving DecidableEq

/-! ## Per-field validators (src/core/broker_config.cpp lines 44-167) -/

/-- `ValidateAndStoreCid`: parse the string as a UUID, store it, and
succeed iff the stored value is not the null UUID.  Note the store
happens before the null check, exactly as in the source. -/
def ValidateAndStoreCid (P : Parsers) (val : Json) (config : BrokerConfig) :
    BrokerConfig × Bool :=
  let config₂ := { config with settings.cid := P.uuidFromString val.asString }
  (config₂, config₂.settings.cid != 0)

/-- `ValidateAndStoreUid`: the two-variant static/dynamic union. -/
def ValidateAndStoreUid (val : Json) (config : BrokerConfig) : BrokerConfig × Bool :=
  if val.containsKey "type" && (val.get "type").isStr &&
      val.containsKey "manufacturer_id" && (val.get "manufacturer_id").isNumberInteger then
    let type := (val.get "type").asString
    let manufacturer_id := (val.get "manufacturer_id").asInt64
    if 0 < manufacturer_id && manufacturer_id < 0x8000 then
      if type = "static" && val.containsKey "device_id" &&
          (val.get "device_id").isNumberInteger then
        let device_id := (val.get "device_id").asInt64
        if 0 ≤ device_id && device_id ≤ 0xffffffff then
          ({ config with
              settings := config.settings.SetStaticUid
                (manufacturer_id.toNat % 2 ^ 16) (device_id.toNat % 2 ^ 32) }, true)
        else
          (config, false)
      else if type = "dynamic" && !val.containsKey "device_id" then
        ({ config with
            settings := config.settings.SetDynamicUid (manufacturer_id.toNat % 2 ^ 16) }, true)
      else
        (config, false)
    else
      (config, false)
  else
    (config, false)

/-- `std::string::substr(0, n)`. -/
def strSubstr (s : String) (n : Nat) : String :=
  ⟨s.data.take n⟩

/-- `ValidateAndStoreString`: a non-empty string, either truncated to
`max_size` or rejected when longer than `max_size`, according to the
field's policy.  Returns the (possibly unchanged) stored string and the
success flag, modelling the by-reference out-parameter. -/
def ValidateAndStoreString (val : Json) (string : String) (max_size : Nat)
    (truncation_allowed : Bool := true) : String × Bool :=
  let str_val := val.asString
  if str_val ≠ "" then
    if truncation_allowed then
      (strSubstr str_val max_size, true)
    else if str_val.length ≤ max_size then
      (str_val, true)
    else
      (string, false)
  else
    (string, false)

/-- `ValidateAndStoreInt`: read the value as int64, check it against the
inclusive limits, and narrow-and-store on success.  Returns the (possibly
unchanged) stored value and the success flag. -/
def ValidateAndStoreInt (val : Json) (setting : Nat) (limits : Int × Int) : Nat × Bool :=
  let int_val := val.asInt64
  if limits.fst ≤ int_val && int_val ≤ limits.snd then
    (int_val.toNat, true)
  else
    (setting, false)

/-- The element loop of `ValidateAndStoreMacList`: insert each parsed MAC,
clearing the whole set and failing on the first non-string or unparseable
element. -/
def MacListLoop (P : Parsers) : List Json → BrokerConfig → BrokerConfig × Bool
  | [], config => (config, true)
  | json_mac :: rest, config =>
    match json_mac with
    | .str s =>
      let mac := P.macFromString s
      if mac = 0 then
        ({ config with settings.listen_macs := ∅ }, false)
      else
        MacListLoop P rest
          { config with settings.listen_macs := insert mac config.settings.listen_macs }
    | _ => ({ config with settings.listen_macs := ∅ }, false)

/-- `ValidateAndStoreMacList`. -/
def ValidateAndStoreMacList (P : Parsers) (val : Json) (config : BrokerConfig) :
    BrokerConfig × Bool :=
  MacListLoop P val.asArray config

/-- The element loop of `ValidateAndStoreIpList`, same shape as the MAC
loop. -/
def IpListLoop (P : Parsers) : List Json → BrokerConfig → BrokerConfig × Bool
  | [], config => (config, true)
  | json_ip :: rest, config =>
    match json_ip with
    | .str s =>
      let ip := P.ipFromString s
      if ip = 0 then
        ({ config with settings.listen_addrs := ∅ }, false)
      else
        IpListLoop P rest
          { config with settings.listen_addrs := insert ip config.settings.listen_addrs }
    | _ => ({ config with settings.listen_addrs := ∅ }, false)

/-- `ValidateAndStoreIpList`. -/
def ValidateAndStoreIpList (P : Parsers) (val : Json) (config : BrokerConfig) :
    BrokerConfig × Bool :=
  IpListLoop P val.asArray config

/-! ## The settings validator table and the driver loop
(src/core/broker_config.cpp lines 202-365) -/

/-- String length limits from the external E1.33 headers (values are not
load-bearing for any claim; the scope limit only appears symbolically). -/
def E133_SERVICE_NAME_STRING_PADDED_LENGTH : Nat := 64

/-- E1.33 manufacturer-string padded length. -/
def E133_MANUFACTURER_STRING_PADDED_LENGTH : Nat := 250

/-- E1.33 model-string padded length. -/
def E133_MODEL_STRING_PADDED_LENGTH : Nat := 250

/-- E1.33 scope-string padded length. -/
def E133_SCOPE_STRING_PADDED_LENGTH : Nat := 63

/-- One row of the settings validator table. -/
structure Validator where
  pointer : List String
  type : JsonType
  validate_and_store : Json → BrokerConfig → BrokerConfig × Bool
  store_default : Option (BrokerConfig → BrokerConfig)

/-- Table entry for the `/cid` pointer. -/
def cidSetting (P : Parsers) : Validator where
  pointer := ["cid"]
  type := .string
  validate_and_store := ValidateAndStoreCid P
  store_default := some fun config => { config with settings.cid := config.default_cid }

/-- Table entry for the `/uid` pointer. -/
def uidSetting : Validator where
  pointer := ["uid"]
  type := .object
  validate_and_store := ValidateAndStoreUid
  store_default := some fun config =>
    { config with settings := (config.settings.SetDynamicUid 0x6574) }

/-- Table entry for the `/dns_sd/service_instance_name` pointer; its
default derives from the instance identity. -/
def serviceInstanceNameSetting (P : Parsers) : Validator where
  pointer := ["dns_sd", "service_instance_name"]
  type := .string
  validate_and_store := fun val config =>
    let r := ValidateAndStoreString val config.settings.dns.service_instance_name
      (E133_SERVICE_NAME_STRING_PADDED_LENGTH - 1)
    ({ config with settings.dns.service_instance_name := r.fst }, r.snd)
  store_default := some fun config =>
    { config with settings.dns.service_instance_name :=
        "ETC RDMnet Broker " ++ P.uuidToString config.default_cid }

/-- Table entry for the `/dns_sd/manufacturer` pointer. -/
def dnsManufacturerSetting : Validator where
  pointer := ["dns_sd", "manufacturer"]
  type := .string
  validate_and_store := fun val config =>
    let r := ValidateAndStoreString val config.settings.dns.manufacturer
      (E133_MANUFACTURER_STRING_PADDED_LENGTH - 1)
    ({ config with settings.dns.manufacturer := r.fst }, r.snd)
  store_default := some fun config => { config with settings.dns.manufacturer := "ETC" }

/-- Table entry for the `/dns_sd/model` pointer. -/
def dnsModelSetting : Validator where
  pointer := ["dns_sd", "model"]
  type := .string
  validate_and_store := fun val config =>
    let r := ValidateAndStoreString val config.settings.dns.model
      (E133_MODEL_STRING_PADDED_LENGTH - 1)
    ({ config with settings.dns.model := r.fst }, r.snd)
  store_default := some fun config =>
    { config with settings.dns.model := "RDMnet Broker Service" }

/-- Table entry for the `/scope` pointer: truncation disallowed, no
default-store. -/
def scopeSetting : Validator where
  pointer := ["scope"]
  type := .string
  validate_and_store := fun val config =>
    let r := ValidateAndStoreString val config.settings.scope
      (E133_SCOPE_STRING_PADDED_LENGTH - 1) false
    ({ config with settings.scope := r.fst }, r.snd)
  store_default := none

/-- Table entry for the `/listen_port` pointer: range [1024, 65535], no
default-store. -/
def listenPortSetting : Validator where
  pointer := ["listen_port"]
  type := .numberUnsigned
  validate_and_store := fun val config =>
    let r := ValidateAndStoreInt val config.settings.listen_port (1024, 65535)
    ({ config with settings.listen_port := r.fst }, r.snd)
  store_default := none

/-- Table entry for the `/listen_macs` pointer. -/
def listenMacsSetting (P : Parsers) : Validator where
  pointer := ["listen_macs"]
  type := .array
  validate_and_store := ValidateAndStoreMacList P
  store_default := none

/-- Table entry for the `/listen_addrs` pointer. -/
def listenAddrsSetting (P : Parsers) : Validator where
  pointer := ["listen_addrs"]
  type := .array
  validate_and_store := ValidateAndStoreIpList P
  store_default := none

/-- Table entry for the `/max_connections` pointer. -/
def maxConnectionsSetting : Validator where
  pointer := ["max_connections"]
  type := .numberUnsigned
  validate_and_store := fun val config =>
    let r := ValidateAndStoreInt val config.settings.max_connections (0, 4294967295)
    ({ config with settings.max_connections := r.fst }, r.snd)
  store_default := none

/-- Table entry for the `/max_controllers` pointer. -/
def maxControllersSetting : Validator where
  pointer := ["max_controllers"]
  type := .numberUnsigned
  validate_and_store := fun val config =>
    let r := ValidateAndStoreInt val config.settings.max_controllers (0, 4294967295)
    ({ config with settings.max_controllers := r.fst }, r.snd)
  store_default := none

/-- Table entry for the `/max_controller_messages` pointer. -/
def maxControllerMessagesSetting : Validator where
  pointer := ["max_controller_messages"]
  type := .numberUnsigned
  validate_and_store := fun val config =>
    let r := ValidateAndStoreInt val config.settings.max_controller_messages (0, 4294967295)
    ({ config with settings.max_controller_messages := r.fst }, r.snd)
  store_default := none

/-- Table entry for the `/max_devices` pointer. -/
def maxDevicesSetting : Validator where
  pointer := ["max_devices"]
  type := .numberUnsigned
  validate_and_store := fun val config =>
    let r := ValidateAndStoreInt val config.settings.max_devices (0, 4294967295)
    ({ config with settings.max_devices := r.fst }, r.snd)
  store_default := none

/-- Table entry for the `/max_device_messages` pointer. -/
def maxDeviceMessagesSetting : Validator where
  pointer := ["max_device_messages"]
  type := .numberUnsigned
  validate_and_store := fun val config =>
    let r := ValidateAndStoreInt val config.settings.max_device_messages (0, 4294967295)
    ({ config with settings.max_device_messages := r.fst }, r.snd)
  store_default := none

/-- Table entry for the `/max_reject_connections` pointer. -/
def maxRejectConnectionsSetting : Validator where
  pointer := ["max_reject_connections"]
  type := .numberUnsigned
  validate_and_store := fun val config =>
    let r := ValidateAndStoreInt val config.settings.max_reject_connections (0, 4294967295)
    ({ config with settings.max_reject_connections := r.fst }, r.snd)
  store_default := none

/-- `kSettingsValidatorArray`: the fifteen schema entries, in source
order.  An absent `store_default` (an empty std::function in the source)
is `none`. -/
def kSettingsValidatorArray (P : Parsers) : List Validator :=
  [cidSetting P, uidSetting, serviceInstanceNameSetting P, dnsManufacturerSetting,
   dnsModelSetting, scopeSetting, listenPortSetting, listenMacsSetting P,
   listenAddrsSetting P, maxConnectionsSetting, maxControllersSetting,
   maxControllerMessagesSetting, maxDevicesSetting, maxDeviceMessagesSetting,
   maxRejectConnectionsSetting]

/-- The outcomes of a load (`BrokerConfig::ParseResult`). -/
inductive ParseResult where
  | kOk
  | kFileOpenErr
  | kJsonParseErr
  | kInvalidSetting
deriving DecidableEq, Repr

/-- One iteration of the `ValidateCurrent` loop body for one table entry:
branch on presence / null / shape, then validate-and-store or default.
`false` in the second component aborts the load with `kInvalidSetting`. -/
def stepEntry (setting : Validator) (doc : Json) (config : BrokerConfig) :
    BrokerConfig × Bool :=
  match doc.resolve setting.pointer with
  | some val =>
    if val.isNull && setting.store_default.isSome then
      ((setting.store_default.getD id) config, true)
    else if val.typeOf ≠ setting.type then
      (config, false)
    else
      setting.validate_and_store val config
  | none =>
    match setting.store_default with
    | some f => (f config, true)
    | none => (config, true)

/-- The `ValidateCurrent` loop over a list of table entries: fail-fast on
the first entry whose step fails, `kOk` after the last entry. -/
def runEntries (doc : Json) : List Validator → BrokerConfig → BrokerConfig × ParseResult
  | [], config => (config, .kOk)
  | setting :: rest, config =>
    match stepEntry setting doc config with
    | (config₂, true) => runEntries doc rest config₂
    | (config₂, false) => (config₂, .kInvalidSetting)

/-- A freshly constructed `BrokerConfig` about to run a load: the
default-constructed settings plus the instance's generated identity. -/
def freshConfig (default_cid : Nat) : BrokerConfig :=
  { settings := defaultBrokerSettings, default_cid := default_cid }

/-- `BrokerConfig::ValidateCurrent` on a freshly constructed instance:
drive the whole validator table over the document. -/
def ValidateCurrent (P : Parsers) (default_cid : Nat) (doc : Json) :
    BrokerConfig × ParseResult :=
  runEntries doc (kSettingsValidatorArray P) (freshConfig default_cid)

/-- Decimal digit-string reading for the concrete witness parsers. -/
def decimalValue (s : String) : Nat :=
  if s.data ≠ [] ∧ s.data.all Char.isDigit then
    s.data.foldl (fun acc c => acc * 10 + (c.toNat - 48)) 0
  else
    0

/-- A concrete parser instantiation used by closed witnesses and
counterexamples: addresses and UUIDs written as non-empty decimal digit
strings parse to their value, anything else to the null value.  (The
claims hold for every parser; this instance only makes statements closed
and computable.) -/
def digitParsers : Parsers where
  uuidFromString := decimalValue
  macFromString := decimalValue
  ipFromString := decimalValue
  uuidToString n := toString n

/-! ## General lemmas about the driver loop -/

/-- A step looks at the document only through the entry's pointer. -/
theorem stepEntry_ext (e : Validator) {d d' : Json} (c : BrokerConfig)
    (h : d.resolve e.pointer = d'.resolve e.pointer) :
    stepEntry e d c = stepEntry e d' c := by
  unfold stepEntry
  rw [h]

/-- One unfolding of the loop: run the head entry's step, then branch on
its success flag. -/
theorem runEntries_cons (doc : Json) (e : Validator) (rest : List Validator)
    (c : BrokerConfig) :
    runEntries doc (e :: rest) c =
      if (stepEntry e doc c).snd then runEntries doc rest (stepEntry e doc c).fst
      else ((stepEntry e doc c).fst, .kInvalidSetting) := by
  conv_lhs => rw [runEntries]
  rcases hs : stepEntry e doc c with ⟨c₂, b⟩
  cases b <;> simp

/-- Two documents on which every listed entry steps identically drive the
loop to the same outcome. -/
theorem runEntries_congr {d d' : Json} (l : List Validator)
    (h : ∀ e ∈ l, ∀ c, stepEntry e d c = stepEntry e d' c) :
    ∀ c, runEntries d l c = runEntries d' l c := by
  induction l with
  | nil => intro c; rfl
  | cons e rest ih =>
    intro c
    have hrest : ∀ x ∈ rest, ∀ c₂, stepEntry x d c₂ = stepEntry x d' c₂ :=
      fun x hx => h x (List.mem_cons_of_mem _ hx)
    rw [runEntries_cons, runEntries_cons, h e (List.mem_cons_self _ _) c]
    by_cases hb : (stepEntry e d' c).snd = true
    · rw [if_pos hb, if_pos hb, ih hrest]
    · rw [if_neg hb, if_neg hb]

/-- If some listed entry fails in every state, the loop ends in
`kInvalidSetting`. -/
theorem runEntries_fails {doc : Json} {e : Validator}
    (hfail : ∀ c, (stepEntry e doc c).snd = false) :
    ∀ l : List Validator, e ∈ l → ∀ c, (runEntries doc l c).snd = .kInvalidSetting := by
  intro l
  induction l with
  | nil => intro hmem; cases hmem
  | cons x rest ih =>
    intro hmem c
    rw [runEntries_cons]
    rcases List.mem_cons.mp hmem with rfl | hmem₂
    · rw [hfail c]
      simp
    · by_cases hb : (stepEntry x doc c).snd = true
      · rw [if_pos hb]
        exact ih hmem₂ _
      · rw [if_neg hb]

/-- Whether every step of the loop succeeds, state threaded left to
right. -/
def allStepsOk (doc : Json) : List Validator → BrokerConfig → Bool
  | [], _ => true
  | e :: rest, c =>
    (stepEntry e doc c).snd && allStepsOk doc rest (stepEntry e doc c).fst

/-- The loop answers `kOk` exactly when every entry's step succeeds. -/
theorem runEntries_ok_iff (doc : Json) (l : List Validator) (c : BrokerConfig) :
    (runEntries doc l c).snd = .kOk ↔ allStepsOk doc l c = true := by
  induction l generalizing c with
  | nil => simp [runEntries, allStepsOk]
  | cons e rest ih =>
    rw [runEntries_cons, allStepsOk]
    by_cases hb : (stepEntry e doc c).snd = true
    · rw [if_pos hb, hb]
      simpa using ih _
    · rw [if_neg hb]
      simp only [Bool.not_eq_true] at hb
      rw [hb]
      simp

/-! ## Claim C2: the UID validator -/

/-- A JSON value that passes the string test is a string literal. -/
theorem Json.isStr_eq {j : Json} (h : j.isStr = true) : j = .str j.asString := by
  cases j <;> simp [Json.isStr, Json.asString] at h ⊢

/-- Membership reads through `get` and `lookup`. -/
theorem Json.get_of_lookup {val j : Json} {k : String} (h : val.lookup k = some j) :
    val.get k = j := by
  simp [Json.get, h]

/-- The spec's acceptance condition for the static variant: discriminator
string "static", integer manufacturer id in (0, 0x8000), integer device id
in [0, 0xFFFFFFFF]. -/
def UidStaticAccepted (val : Json) : Prop :=
  val.lookup "type" = some (.str "static") ∧
  (val.get "manufacturer_id").isNumberInteger = true ∧
  0 < (val.get "manufacturer_id").asInt64 ∧
  (val.get "manufacturer_id").asInt64 < 0x8000 ∧
  (val.get "device_id").isNumberInteger = true ∧
  0 ≤ (val.get "device_id").asInt64 ∧
  (val.get "device_id").asInt64 ≤ 0xffffffff

/-- The spec's acceptance condition for the dynamic variant: discriminator
string "dynamic", integer manufacturer id in (0, 0x8000), no device id
key. -/
def UidDynamicAccepted (val : Json) : Prop :=
  val.lookup "type" = some (.str "dynamic") ∧
  (val.get "manufacturer_id").isNumberInteger = true ∧
  0 < (val.get "manufacturer_id").asInt64 ∧
  (val.get "manufacturer_id").asInt64 < 0x8000 ∧
  val.containsKey "device_id" = false

/-- On a statically accepted input the UID validator stores the static
variant and succeeds. -/
theorem uid_static_run {val : Json} (c : BrokerConfig) (h : UidStaticAccepted val) :
    ValidateAndStoreUid val c =
      ({ c with settings :=
          (c.settings.SetStaticUid (val.get "manufacturer_id").asInt64.toNat
            (val.get "device_id").asInt64.toNat) }, true) := by
  obtain ⟨h1, h2, h3, h4, h5, h6, h7⟩ := h
  have hget : val.get "type" = .str "static" := Json.get_of_lookup h1
  have hck : val.containsKey "type" = true := by
    simp [Json.containsKey, h1]
  have hdk : val.containsKey "device_id" = true := by
    rcases hd : val.lookup "device_id" with _ | dj
    · rw [Json.get, hd] at h5
      simp [Json.isNumberInteger] at h5
    · simp [Json.containsKey, hd]
  have hcm : val.containsKey "manufacturer_id" = true := by
    rcases hmm : val.lookup "manufacturer_id" with _ | mj
    · rw [Json.get, hmm] at h2
      simp [Json.isNumberInteger] at h2
    · simp [Json.containsKey, hmm]
  have hmo : (val.get "manufacturer_id").asInt64.toNat % 65536 =
      (val.get "manufacturer_id").asInt64.toNat := by
    apply Nat.mod_eq_of_lt
    omega
  have hdo : (val.get "device_id").asInt64.toNat % 4294967296 =
      (val.get "device_id").asInt64.toNat := by
    apply Nat.mod_eq_of_lt
    omega
  unfold ValidateAndStoreUid
  simp [hget, hck, hcm, hdk, h2, h3, h4, h5, h6, h7, Json.isStr, Json.asString, hmo, hdo]

/-- On a dynamically accepted input the UID validator stores the dynamic
variant and succeeds. -/
theorem uid_dynamic_run {val : Json} (c : BrokerConfig) (h : UidDynamicAccepted val) :
    ValidateAndStoreUid val c =
      ({ c with settings :=
          (c.settings.SetDynamicUid (val.get "manufacturer_id").asInt64.toNat) }, true) := by
  obtain ⟨h1, h2, h3, h4, h5⟩ := h
  have hget : val.get "type" = .str "dynamic" := Json.get_of_lookup h1
  have hck : val.containsKey "type" = true := by
    simp [Json.containsKey, h1]
  have hcm : val.containsKey "manufacturer_id" = true := by
    rcases hmm : val.lookup "manufacturer_id" with _ | mj
    · rw [Json.get, hmm] at h2
      simp [Json.isNumberInteger] at h2
    · simp [Json.containsKey, hmm]
  have hmo : (val.get "manufacturer_id").asInt64.toNat % 65536 =
      (val.get "manufacturer_id").asInt64.toNat := by
    apply Nat.mod_eq_of_lt
    omega
  unfold ValidateAndStoreUid
  simp [hget, hck, hcm, h2, h3, h4, h5, Json.isStr, Json.asString, hmo]

/-- On any input accepted by neither variant the UID validator fails and
leaves the record untouched. -/
theorem uid_fail {val : Json} (c : BrokerConfig) (hS : ¬ UidStaticAccepted val)
    (hD : ¬ UidDynamicAccepted val) : ValidateAndStoreUid val c = (c, false) := by
  unfold ValidateAndStoreUid
  rcases ht : val.lookup "type" with _ | tj
  · simp [Json.containsKey, ht]
  by_cases hstr : tj.isStr = true
  swap
  · simp [Json.containsKey, Json.get, ht, Bool.eq_false_iff.mpr hstr]
  rcases hm : val.lookup "manufacturer_id" with _ | mj
  · simp [Json.containsKey, Json.get, ht, hm]
  by_cases hmi : mj.isNumberInteger = true
  swap
  · simp [Json.containsKey, Json.get, ht, hm, Bool.eq_false_iff.mpr hmi]
  have htj : tj = .str tj.asString := Json.isStr_eq hstr
  simp only [Json.containsKey, Json.get, ht, hm, Option.getD, Option.isSome, hstr, hmi,
    Bool.and_true, Bool.true_and, if_true]
  split_ifs with hg2 hg3 hg4 hg5 <;> try rfl
  · exfalso
    simp only [Bool.and_eq_true, decide_eq_true_eq] at hg2 hg3 hg4
    apply hS
    refine ⟨?_, ?_, ?_, ?_, ?_, ?_, ?_⟩
    · rw [ht, htj, hg3.1.1]
    · simp [Json.get, hm, hmi]
    · simpa [Json.get, hm] using hg2.1
    · simpa [Json.get, hm] using hg2.2
    · simpa only [Json.get, Option.getD] using hg3.2
    · simpa only [Json.get, Option.getD] using hg4.1
    · simpa only [Json.get, Option.getD] using hg4.2
  · exfalso
    simp only [Bool.and_eq_true, Bool.not_eq_true', decide_eq_true_eq] at hg2 hg5
    apply hD
    refine ⟨?_, ?_, ?_, ?_, ?_⟩
    · rw [ht, htj, hg5.1]
    · simp [Json.get, hm, hmi]
    · simpa [Json.get, hm] using hg2.1
    · simpa [Json.get, hm] using hg2.2
    · simpa only [Json.containsKey, Option.isSome] using hg5.2

/-- C2: the UID validator fails when the discriminator is missing or is
neither "static" nor "dynamic", when the manufacturer id is 0 or at least
0x8000, when a dynamic input carries a device id, or when a static input
lacks one or has one out of [0, 0xFFFFFFFF]; it succeeds exactly when one
of the two variants' conditions holds, and then stores that variant in
the record. -/
theorem uid_validator_spec (val : Json) (c : BrokerConfig) :
    ((ValidateAndStoreUid val c).snd = true ↔ UidStaticAccepted val ∨ UidDynamicAccepted val) ∧
    (UidStaticAccepted val →
      (ValidateAndStoreUid val c).fst =
        { c with settings :=
            (c.settings.SetStaticUid (val.get "manufacturer_id").asInt64.toNat
              (val.get "device_id").asInt64.toNat) }) ∧
    (UidDynamicAccepted val →
      (ValidateAndStoreUid val c).fst =
        { c with settings :=
            (c.settings.SetDynamicUid (val.get "manufacturer_id").asInt64.toNat) }) ∧
    (val.containsKey "type" = false → (ValidateAndStoreUid val c).snd = false) ∧
    (∀ s, val.lookup "type" = some (.str s) → s ≠ "static" → s ≠ "dynamic" →
      (ValidateAndStoreUid val c).snd = false) ∧
    ((val.get "manufacturer_id").asInt64 = 0 ∨ 0x8000 ≤ (val.get "manufacturer_id").asInt64 →
      (ValidateAndStoreUid val c).snd = false) ∧
    (val.lookup "type" = some (.str "dynamic") → val.containsKey "device_id" = true →
      (ValidateAndStoreUid val c).snd = false) ∧
    (val.lookup "type" = some (.str "static") →
      (val.containsKey "device_id" = false ∨ (val.get "device_id").asInt64 < 0 ∨
        0xffffffff < (val.get "device_id").asInt64) →
      (ValidateAndStoreUid val c).snd = false) := by
  have key : ¬ UidStaticAccepted val → ¬ UidDynamicAccepted val →
      (ValidateAndStoreUid val c).snd = false := by
    intro hS hD
    rw [uid_fail c hS hD]
  refine ⟨⟨fun h => ?_, fun h => ?_⟩, fun h => ?_, fun h => ?_, fun hck => ?_,
    fun s hs hns hnd => ?_, fun hm => ?_, fun hty hdk => ?_, fun hty hdev => ?_⟩
  · by_cases hS : UidStaticAccepted val
    · exact Or.inl hS
    by_cases hD : UidDynamicAccepted val
    · exact Or.inr hD
    · rw [uid_fail c hS hD] at h
      cases h
  · rcases h with h | h
    · rw [uid_static_run c h]
    · rw [uid_dynamic_run c h]
  · rw [uid_static_run c h]
  · rw [uid_dynamic_run c h]
  · apply key
    · rintro ⟨h1, -⟩
      simp [Json.containsKey, h1] at hck
    · rintro ⟨h1, -⟩
      simp [Json.containsKey, h1] at hck
  · apply key
    · rintro ⟨h1, -⟩
      rw [hs] at h1
      simp at h1
      exact hns h1
    · rintro ⟨h1, -⟩
      rw [hs] at h1
      simp at h1
      exact hnd h1
  · apply key
    · rintro ⟨-, -, h3, h4, -⟩
      omega
    · rintro ⟨-, -, h3, h4, -⟩
      omega
  · apply key
    · rintro ⟨h1, -⟩
      rw [hty] at h1
      simp at h1
    · rintro ⟨-, -, -, -, h5⟩
      rw [h5] at hdk
      cases hdk
  · apply key
    · rintro ⟨-, -, -, -, h5, h6, h7⟩
      rcases hdev with hdev | hdev | hdev
      · rcases hd : val.lookup "device_id" with _ | dj
        · rw [Json.get, hd] at h5
          simp [Json.isNumberInteger] at h5
        · simp [Json.containsKey, hd] at hdev
      · omega
      · omega
    · rintro ⟨h1, -⟩
      rw [hty] at h1
      simp at h1

/-- A concrete statically addressed UID object. -/
def uidWitnessDoc : Json :=
  .obj [("type", .str "static"), ("manufacturer_id", .uintNum 100), ("device_id", .uintNum 5)]

/-- Witness for C2: the concrete static UID object is accepted and stored
as the static variant. -/
theorem uid_validator_spec_witness :
    UidStaticAccepted uidWitnessDoc ∧
    (ValidateAndStoreUid uidWitnessDoc (freshConfig 7)).fst =
      { freshConfig 7 with settings := ((freshConfig 7).settings.SetStaticUid 100 5) } := by
  have hS : UidStaticAccepted uidWitnessDoc := by
    refine ⟨rfl, rfl, by decide, by decide, rfl, by decide, by decide⟩
  refine ⟨hS, ?_⟩
  rw [(uid_validator_spec uidWitnessDoc (freshConfig 7)).2.1 hS]
  rfl

/-! ## Claim C5: listen_port boundary values -/

/-- C5: documents setting listen_port to 1024 or 65535 load successfully
with that value stored; 1023 and 65536 fail with `kInvalidSetting`. -/
theorem listen_port_boundaries (P : Parsers) (default_cid : Nat) :
    (ValidateCurrent P default_cid (.obj [("listen_port", .uintNum 1024)])).snd = .kOk ∧
    (ValidateCurrent P default_cid
      (.obj [("listen_port", .uintNum 1024)])).fst.settings.listen_port = 1024 ∧
    (ValidateCurrent P default_cid (.obj [("listen_port", .uintNum 65535)])).snd = .kOk ∧
    (ValidateCurrent P default_cid
      (.obj [("listen_port", .uintNum 65535)])).fst.settings.listen_port = 65535 ∧
    (ValidateCurrent P default_cid
      (.obj [("listen_port", .uintNum 1023)])).snd = .kInvalidSetting ∧
    (ValidateCurrent P default_cid
      (.obj [("listen_port", .uintNum 65536)])).snd = .kInvalidSetting :=
  ⟨rfl, rfl, rfl, rfl, rfl, rfl⟩

/-! ## Claim C10: empty list inputs -/

/-- C10: an empty array input to either list validator succeeds and
returns the record exactly as it was, for every record state. -/
theorem empty_list_accepted (P : Parsers) (c : BrokerConfig) :
    ValidateAndStoreMacList P (.arr []) c = (c, true) ∧
    ValidateAndStoreIpList P (.arr []) c = (c, true) :=
  ⟨rfl, rfl⟩

/-! ## Claim C3: the bounded-string validator -/

/-- `substr(0, n)` clips to at most `n` characters. -/
theorem string_length_substr (s : String) (n : Nat) :
    (strSubstr s n).length = min n s.length :=
  List.length_take n s.data

/-- The scope entry is row six of the validator table. -/
theorem scopeSetting_mem (P : Parsers) : scopeSetting ∈ kSettingsValidatorArray P := by
  unfold kSettingsValidatorArray
  exact .tail _ (.tail _ (.tail _ (.tail _ (.tail _ (.head _)))))

/-- An over-limit scope string makes the scope entry's step fail in every
state. -/
theorem scope_step_fails {doc : Json} {s : String}
    (hres : doc.resolve ["scope"] = some (.str s))
    (hlen : E133_SCOPE_STRING_PADDED_LENGTH - 1 < s.length) :
    ∀ c, (stepEntry scopeSetting doc c).snd = false := by
  intro c
  have hne : s ≠ "" := by
    intro h
    rw [h] at hlen
    simp [String.length] at hlen
  unfold stepEntry
  rw [show scopeSetting.pointer = ["scope"] from rfl, hres]
  simp [scopeSetting, Json.isNull, Json.typeOf, ValidateAndStoreString, Json.asString, hne,
    Nat.not_le.mpr hlen]

/-- C3: the empty string fails under either policy; under truncation every
non-empty string is accepted and stored clipped to the limit (so an
over-limit input is stored at exactly the limit); under the reject policy
acceptance holds exactly for non-empty strings within the limit, the value
is stored unchanged, and an over-limit scope value fails the whole
load. -/
theorem bounded_string_validator_spec (val cur : String) (max_size : Nat) :
    (∀ t : Bool, ValidateAndStoreString (.str "") cur max_size t = (cur, false)) ∧
    (val ≠ "" → ValidateAndStoreString (.str val) cur max_size true =
      (strSubstr val max_size, true)) ∧
    (val ≠ "" → (strSubstr val max_size).length = min max_size val.length) ∧
    ((ValidateAndStoreString (.str val) cur max_size false).snd = true ↔
      val ≠ "" ∧ val.length ≤ max_size) ∧
    (val ≠ "" → val.length ≤ max_size →
      ValidateAndStoreString (.str val) cur max_size false = (val, true)) ∧
    (∀ (P : Parsers) (default_cid : Nat) (doc : Json),
      doc.resolve ["scope"] = some (.str val) →
      E133_SCOPE_STRING_PADDED_LENGTH - 1 < val.length →
      (ValidateCurrent P default_cid doc).snd = .kInvalidSetting) := by
  refine ⟨fun t => ?_, fun h => ?_, fun h => string_length_substr val max_size,
    ?_, fun h1 h2 => ?_, fun P default_cid doc hres hlen => ?_⟩
  · simp [ValidateAndStoreString, Json.asString]
  · simp [ValidateAndStoreString, Json.asString, h]
  · constructor
    · intro hs
      by_cases h : val = ""
      · rw [h] at hs
        simp [ValidateAndStoreString, Json.asString] at hs
      · by_cases h2 : val.length ≤ max_size
        · exact ⟨h, h2⟩
        · simp [ValidateAndStoreString, Json.asString, h, h2] at hs
    · rintro ⟨h1, h2⟩
      simp [ValidateAndStoreString, Json.asString, h1, h2]
  · simp [ValidateAndStoreString, Json.asString, h1, h2]
  · exact runEntries_fails (scope_step_fails hres hlen) _ (scopeSetting_mem P) _

/-- A 63-character scope string, one over the limit of 62. -/
def longScopeString : String :=
  ⟨List.replicate 63 (Char.ofNat 97)⟩

/-- Witness for C3: a four-character string is truncated to the limit of
two, and a load whose scope is 63 characters fails. -/
theorem bounded_string_validator_spec_witness :
    ValidateAndStoreString (.str "abcd") "x" 2 true = ("ab", true) ∧
    (ValidateCurrent digitParsers 1 (.obj [("scope", .str longScopeString)])).snd =
      .kInvalidSetting := by
  constructor
  · rw [(bounded_string_validator_spec "abcd" "x" 2).2.1 (by decide)]
    rfl
  · exact (bounded_string_validator_spec longScopeString "x" 2).2.2.2.2.2 digitParsers 1 _
      rfl (by decide)

/-! ## Claim C4: all-or-nothing list validation -/

/-- An array element the MAC-list validator accepts: a string the MAC
parser does not map to the null address. -/
def ValidMacElem (P : Parsers) (j : Json) : Prop :=
  ∃ s, j = .str s ∧ P.macFromString s ≠ 0

/-- An array element the IP-list validator accepts. -/
def ValidIpElem (P : Parsers) (j : Json) : Prop :=
  ∃ s, j = .str s ∧ P.ipFromString s ≠ 0

/-- A MAC list containing an invalid element drives the loop to an empty
set and failure, from every starting state. -/
theorem MacListLoop_fails (P : Parsers) (l : List Json)
    (hbad : ∃ j ∈ l, ¬ ValidMacElem P j) :
    ∀ c, MacListLoop P l c = ({ c with settings.listen_macs := ∅ }, false) := by
  induction l with
  | nil =>
    rcases hbad with ⟨j, hj, _⟩
    cases hj
  | cons x rest ih =>
    intro c
    rcases hbad with ⟨j, hj, hbadj⟩
    rcases List.mem_cons.mp hj with rfl | hjrest
    · cases j with
      | str s =>
        have hz : P.macFromString s = 0 := by
          by_contra hne
          exact hbadj ⟨s, rfl, hne⟩
        simp [MacListLoop, hz]
      | null => simp [MacListLoop]
      | boolean b => simp [MacListLoop]
      | intNum i => simp [MacListLoop]
      | uintNum n => simp [MacListLoop]
      | arr xs => simp [MacListLoop]
      | obj fs => simp [MacListLoop]
    · cases x with
      | str s =>
        by_cases hz : P.macFromString s = 0
        · simp [MacListLoop, hz]
        · rw [MacListLoop]
          rw [if_neg hz]
          rw [ih ⟨j, hjrest, hbadj⟩]
      | null => simp [MacListLoop]
      | boolean b => simp [MacListLoop]
      | intNum i => simp [MacListLoop]
      | uintNum n => simp [MacListLoop]
      | arr xs => simp [MacListLoop]
      | obj fs => simp [MacListLoop]

/-- An IP list containing an invalid element drives the loop to an empty
set and failure, from every starting state. -/
theorem IpListLoop_fails (P : Parsers) (l : List Json)
    (hbad : ∃ j ∈ l, ¬ ValidIpElem P j) :
    ∀ c, IpListLoop P l c = ({ c with settings.listen_addrs := ∅ }, false) := by
  induction l with
  | nil =>
    rcases hbad with ⟨j, hj, _⟩
    cases hj
  | cons x rest ih =>
    intro c
    rcases hbad with ⟨j, hj, hbadj⟩
    rcases List.mem_cons.mp hj with rfl | hjrest
    · cases j with
      | str s =>
        have hz : P.ipFromString s = 0 := by
          by_contra hne
          exact hbadj ⟨s, rfl, hne⟩
        simp [IpListLoop, hz]
      | null => simp [IpListLoop]
      | boolean b => simp [IpListLoop]
      | intNum i => simp [IpListLoop]
      | uintNum n => simp [IpListLoop]
      | arr xs => simp [IpListLoop]
      | obj fs => simp [IpListLoop]
    · cases x with
      | str s =>
        by_cases hz : P.ipFromString s = 0
        · simp [IpListLoop, hz]
        · rw [IpListLoop]
          rw [if_neg hz]
          rw [ih ⟨j, hjrest, hbadj⟩]
      | null => simp [IpListLoop]
      | boolean b => simp [IpListLoop]
      | intNum i => simp [IpListLoop]
      | uintNum n => simp [IpListLoop]
      | arr xs => simp [IpListLoop]
      | obj fs => simp [IpListLoop]

/-- The MAC-list entry is row eight of the validator table. -/
theorem listenMacsSetting_mem (P : Parsers) :
    listenMacsSetting P ∈ kSettingsValidatorArray P := by
  unfold kSettingsValidatorArray
  exact .tail _ (.tail _ (.tail _ (.tail _ (.tail _ (.tail _ (.tail _ (.head _)))))))

/-- The IP-list entry is row nine of the validator table. -/
theorem listenAddrsSetting_mem (P : Parsers) :
    listenAddrsSetting P ∈ kSettingsValidatorArray P := by
  unfold kSettingsValidatorArray
  exact .tail _ (.tail _ (.tail _ (.tail _ (.tail _ (.tail _ (.tail _ (.tail _ (.head _))))))))

/-- A bad MAC array makes the MAC entry's step fail in every state. -/
theorem macs_step_fails {P : Parsers} {doc : Json} {l : List Json}
    (hres : doc.resolve ["listen_macs"] = some (.arr l))
    (hbad : ∃ j ∈ l, ¬ ValidMacElem P j) :
    ∀ c, (stepEntry (listenMacsSetting P) doc c).snd = false := by
  intro c
  unfold stepEntry
  rw [show (listenMacsSetting P).pointer = ["listen_macs"] from rfl, hres]
  simp [listenMacsSetting, Json.isNull, Json.typeOf, ValidateAndStoreMacList, Json.asArray,
    MacListLoop_fails P l hbad]

/-- A bad IP array makes the IP entry's step fail in every state. -/
theorem addrs_step_fails {P : Parsers} {doc : Json} {l : List Json}
    (hres : doc.resolve ["listen_addrs"] = some (.arr l))
    (hbad : ∃ j ∈ l, ¬ ValidIpElem P j) :
    ∀ c, (stepEntry (listenAddrsSetting P) doc c).snd = false := by
  intro c
  unfold stepEntry
  rw [show (listenAddrsSetting P).pointer = ["listen_addrs"] from rfl, hres]
  simp [listenAddrsSetting, Json.isNull, Json.typeOf, ValidateAndStoreIpList, Json.asArray,
    IpListLoop_fails P l hbad]

/-- C4: an array input with any element that is not a string or not
parseable makes the list validator fail with the field's set left empty
(no partial population survives), and makes the whole load fail with
`kInvalidSetting`. -/
theorem list_validator_all_or_nothing (P : Parsers) :
    (∀ (l : List Json) (c : BrokerConfig), (∃ j ∈ l, ¬ ValidMacElem P j) →
      ValidateAndStoreMacList P (.arr l) c = ({ c with settings.listen_macs := ∅ }, false)) ∧
    (∀ (l : List Json) (c : BrokerConfig), (∃ j ∈ l, ¬ ValidIpElem P j) →
      ValidateAndStoreIpList P (.arr l) c = ({ c with settings.listen_addrs := ∅ }, false)) ∧
    (∀ (default_cid : Nat) (doc : Json) (l : List Json),
      doc.resolve ["listen_macs"] = some (.arr l) → (∃ j ∈ l, ¬ ValidMacElem P j) →
      (ValidateCurrent P default_cid doc).snd = .kInvalidSetting) ∧
    (∀ (default_cid : Nat) (doc : Json) (l : List Json),
      doc.resolve ["listen_addrs"] = some (.arr l) → (∃ j ∈ l, ¬ ValidIpElem P j) →
      (ValidateCurrent P default_cid doc).snd = .kInvalidSetting) := by
  refine ⟨fun l c hbad => ?_, fun l c hbad => ?_, fun default_cid doc l hres hbad => ?_,
    fun default_cid doc l hres hbad => ?_⟩
  · rw [ValidateAndStoreMacList, show (Json.arr l).asArray = l from rfl,
      MacListLoop_fails P l hbad c]
  · rw [ValidateAndStoreIpList, show (Json.arr l).asArray = l from rfl,
      IpListLoop_fails P l hbad c]
  · exact runEntries_fails (macs_step_fails hres hbad) _ (listenMacsSetting_mem P) _
  · exact runEntries_fails (addrs_step_fails hres hbad) _ (listenAddrsSetting_mem P) _

/-- Witness for C4: a MAC array with a valid element followed by a
non-string one is rejected with the set cleared, and the corresponding
load fails. -/
theorem list_validator_all_or_nothing_witness :
    ValidateAndStoreMacList digitParsers (.arr [.str "12", .uintNum 3]) (freshConfig 7) =
      ({ freshConfig 7 with settings.listen_macs := ∅ }, false) ∧
    ValidateAndStoreIpList digitParsers (.arr [.str "12", .boolean true]) (freshConfig 7) =
      ({ freshConfig 7 with settings.listen_addrs := ∅ }, false) ∧
    (ValidateCurrent digitParsers 1
      (.obj [("listen_macs", .arr [.str "12", .uintNum 3])])).snd = .kInvalidSetting ∧
    (ValidateCurrent digitParsers 1
      (.obj [("listen_addrs", .arr [.str "bad"])])).snd = .kInvalidSetting := by
  have hbadm : ∃ j ∈ [Json.str "12", Json.uintNum 3], ¬ ValidMacElem digitParsers j := by
    refine ⟨.uintNum 3, .tail _ (.head _), ?_⟩
    rintro ⟨s, hs, -⟩
    cases hs
  have hbadi : ∃ j ∈ [Json.str "12", Json.boolean true], ¬ ValidIpElem digitParsers j := by
    refine ⟨.boolean true, .tail _ (.head _), ?_⟩
    rintro ⟨s, hs, -⟩
    cases hs
  have hbadi2 : ∃ j ∈ [Json.str "bad"], ¬ ValidIpElem digitParsers j := by
    refine ⟨.str "bad", .head _, ?_⟩
    rintro ⟨s, hs, hne⟩
    injection hs with hs
    subst hs
    exact hne (by decide)
  have h := list_validator_all_or_nothing digitParsers
  exact ⟨h.1 _ _ hbadm, h.2.1 _ _ hbadi, h.2.2.1 1 _ _ rfl hbadm, h.2.2.2 1 _ _ rfl hbadi2⟩

/-! ## Claim C6: the loader is fail-fast -/

/-- C6: a failing entry step ends the load immediately in
`kInvalidSetting` with the state the failing step produced; the entries
after it are never examined (the tail of the table is irrelevant to the
outcome); and the loop answers `kOk` exactly when every entry's step,
in table order, succeeds.  `ValidateCurrent` is this loop over the full
table from a freshly constructed record. -/
theorem loader_fail_fast (P : Parsers) (default_cid : Nat) (doc : Json) :
    (∀ (e : Validator) (rest rest₂ : List Validator) (c : BrokerConfig),
      (stepEntry e doc c).snd = false →
      runEntries doc (e :: rest) c = ((stepEntry e doc c).fst, .kInvalidSetting) ∧
      runEntries doc (e :: rest) c = runEntries doc (e :: rest₂) c) ∧
    (∀ (l : List Validator) (c : BrokerConfig),
      (runEntries doc l c).snd = .kOk ↔ allStepsOk doc l c = true) ∧
    ValidateCurrent P default_cid doc =
      runEntries doc (kSettingsValidatorArray P) (freshConfig default_cid) := by
  refine ⟨fun e rest rest₂ c hf => ?_, fun l c => runEntries_ok_iff doc l c, rfl⟩
  constructor
  · rw [runEntries_cons, hf]
    simp
  · rw [runEntries_cons, runEntries_cons, hf]
    simp

/-- Witness for C6: with an out-of-range port, the port entry's failing
step makes the run end in `kInvalidSetting` no matter what follows it in
the table. -/
theorem loader_fail_fast_witness :
    runEntries (.obj [("listen_port", .uintNum 1023)])
        [listenPortSetting, maxDevicesSetting] (freshConfig 1) =
      ((stepEntry listenPortSetting (.obj [("listen_port", .uintNum 1023)])
        (freshConfig 1)).fst, .kInvalidSetting) ∧
    runEntries (.obj [("listen_port", .uintNum 1023)])
        [listenPortSetting, maxDevicesSetting] (freshConfig 1) =
      runEntries (.obj [("listen_port", .uintNum 1023)]) [listenPortSetting] (freshConfig 1) :=
  (loader_fail_fast digitParsers 1 (.obj [("listen_port", .uintNum 1023)])).1
    listenPortSetting [maxDevicesSetting] [] (freshConfig 1) rfl

/-! ## Claim C7: what failing validators do to the record -/

/-- A MAC loop that fails leaves the record with only its own set
changed, to empty. -/
theorem MacListLoop_frame (P : Parsers) (l : List Json) :
    ∀ c, (MacListLoop P l c).snd = false →
      (MacListLoop P l c).fst = { c with settings.listen_macs := ∅ } := by
  induction l with
  | nil =>
    intro c h
    simp [MacListLoop] at h
  | cons x rest ih =>
    intro c h
    cases x with
    | str s =>
      by_cases hz : P.macFromString s = 0
      · simp [MacListLoop, hz]
      · rw [MacListLoop, if_neg hz] at h ⊢
        rw [ih _ h]
    | null => simp [MacListLoop]
    | boolean b => simp [MacListLoop]
    | intNum i => simp [MacListLoop]
    | uintNum n => simp [MacListLoop]
    | arr xs => simp [MacListLoop]
    | obj fs => simp [MacListLoop]

/-- An IP loop that fails leaves the record with only its own set
changed, to empty. -/
theorem IpListLoop_frame (P : Parsers) (l : List Json) :
    ∀ c, (IpListLoop P l c).snd = false →
      (IpListLoop P l c).fst = { c with settings.listen_addrs := ∅ } := by
  induction l with
  | nil =>
    intro c h
    simp [IpListLoop] at h
  | cons x rest ih =>
    intro c h
    cases x with
    | str s =>
      by_cases hz : P.ipFromString s = 0
      · simp [IpListLoop, hz]
      · rw [IpListLoop, if_neg hz] at h ⊢
        rw [ih _ h]
    | null => simp [IpListLoop]
    | boolean b => simp [IpListLoop]
    | intNum i => simp [IpListLoop]
    | uintNum n => simp [IpListLoop]
    | arr xs => simp [IpListLoop]
    | obj fs => simp [IpListLoop]

/-- A record with a non-null cid that a failing cid validation overwrites
with the null UUID: the counterexample state for C7. -/
def cidFiveConfig : BrokerConfig :=
  { settings := { defaultBrokerSettings with cid := 5 }, default_cid := 7 }

/-- A record with a non-empty MAC set. -/
def macOneConfig : BrokerConfig :=
  { settings := { defaultBrokerSettings with listen_macs := {1} }, default_cid := 7 }

/-- Counterexample to C7 as stated: the cid validator fails on an
unparseable string yet changes the record (it stores the null UUID
first), and a failing MAC-list validation clears a previously non-empty
set. -/
theorem validator_failure_frame_counterexample :
    ((ValidateAndStoreCid digitParsers (.str "x") cidFiveConfig).snd = false ∧
      (ValidateAndStoreCid digitParsers (.str "x") cidFiveConfig).fst ≠ cidFiveConfig) ∧
    ((ValidateAndStoreMacList digitParsers (.arr [.uintNum 3]) macOneConfig).snd = false ∧
      (ValidateAndStoreMacList digitParsers (.arr [.uintNum 3]) macOneConfig).fst ≠
        macOneConfig) := by
  refine ⟨⟨rfl, ?_⟩, ⟨rfl, ?_⟩⟩ <;> decide

/-- C7 (amended): a failing validator leaves every field other than its
own target unchanged; the uid, string and integer validators leave
everything unchanged on failure, while the cid validator rewrites only
the cid (to the null UUID) and the list validators reset only their own
set (to empty) — so on a record whose cid is already null or whose set is
already empty (the loader's actual pre-states), failure leaves the record
exactly as it was. -/
theorem validator_failure_frame (P : Parsers) (val : Json) (c : BrokerConfig) :
    ((ValidateAndStoreCid P val c).snd = false →
      (ValidateAndStoreCid P val c).fst = { c with settings.cid := 0 }) ∧
    ((ValidateAndStoreUid val c).snd = false → (ValidateAndStoreUid val c).fst = c) ∧
    (∀ (cur : String) (max_size : Nat) (t : Bool),
      (ValidateAndStoreString val cur max_size t).snd = false →
      (ValidateAndStoreString val cur max_size t).fst = cur) ∧
    (∀ (cur : Nat) (limits : Int × Int),
      (ValidateAndStoreInt val cur limits).snd = false →
      (ValidateAndStoreInt val cur limits).fst = cur) ∧
    ((ValidateAndStoreMacList P val c).snd = false →
      (ValidateAndStoreMacList P val c).fst = { c with settings.listen_macs := ∅ }) ∧
    ((ValidateAndStoreIpList P val c).snd = false →
      (ValidateAndStoreIpList P val c).fst = { c with settings.listen_addrs := ∅ }) ∧
    (c.settings.cid = 0 → (ValidateAndStoreCid P val c).snd = false →
      (ValidateAndStoreCid P val c).fst = c) ∧
    (c.settings.listen_macs = ∅ → (ValidateAndStoreMacList P val c).snd = false →
      (ValidateAndStoreMacList P val c).fst = c) ∧
    (c.settings.listen_addrs = ∅ → (ValidateAndStoreIpList P val c).snd = false →
      (ValidateAndStoreIpList P val c).fst = c) := by
  have hcid : (ValidateAndStoreCid P val c).snd = false →
      (ValidateAndStoreCid P val c).fst = { c with settings.cid := 0 } := by
    intro h
    unfold ValidateAndStoreCid at h ⊢
    simp only [bne_eq_false_iff_eq] at h
    simp [h]
  have hmac : (ValidateAndStoreMacList P val c).snd = false →
      (ValidateAndStoreMacList P val c).fst = { c with settings.listen_macs := ∅ } :=
    MacListLoop_frame P val.asArray c
  have hip : (ValidateAndStoreIpList P val c).snd = false →
      (ValidateAndStoreIpList P val c).fst = { c with settings.listen_addrs := ∅ } :=
    IpListLoop_frame P val.asArray c
  refine ⟨hcid, fun h => ?_, fun cur max_size t h => ?_, fun cur limits h => ?_, hmac, hip,
    fun h0 h => ?_, fun h0 h => ?_, fun h0 h => ?_⟩
  · by_cases hS : UidStaticAccepted val
    · rw [uid_static_run c hS] at h
      cases h
    by_cases hD : UidDynamicAccepted val
    · rw [uid_dynamic_run c hD] at h
      cases h
    · rw [uid_fail c hS hD]
  · simp only [ValidateAndStoreString] at h ⊢
    split_ifs at h ⊢ <;> rfl
  · simp only [ValidateAndStoreInt] at h ⊢
    split_ifs at h ⊢
    rfl
  · rw [hcid h, ← h0]
  · rw [hmac h, ← h0]
  · rw [hip h, ← h0]

/-- Witness for C7 (amended): on the fresh record a failing cid parse, a
failing uid object, a failing string, a failing int and failing lists all
leave the record equal to its pre-state. -/
theorem validator_failure_frame_witness :
    (ValidateAndStoreCid digitParsers (.str "x") (freshConfig 7)).fst = freshConfig 7 ∧
    (ValidateAndStoreUid (.obj []) (freshConfig 7)).fst = freshConfig 7 ∧
    (ValidateAndStoreString (.str "") "cur" 5 true).fst = "cur" ∧
    (ValidateAndStoreInt (.uintNum 9) 0 (1024, 65535)).fst = 0 ∧
    (ValidateAndStoreMacList digitParsers (.arr [.uintNum 3]) (freshConfig 7)).fst =
      freshConfig 7 := by
  have h₁ := validator_failure_frame digitParsers (.str "x") (freshConfig 7)
  have h₂ := validator_failure_frame digitParsers (.obj []) (freshConfig 7)
  have h₃ := validator_failure_frame digitParsers (.str "") (freshConfig 7)
  have h₄ := validator_failure_frame digitParsers (.uintNum 9) (freshConfig 7)
  have h₅ := validator_failure_frame digitParsers (.arr [.uintNum 3]) (freshConfig 7)
  exact ⟨h₁.2.2.2.2.2.2.1 rfl rfl, h₂.2.1 rfl, h₃.2.2.1 "cur" 5 true rfl,
    h₄.2.2.2.1 0 (1024, 65535) rfl, h₅.2.2.2.2.2.2.2.1 rfl rfl⟩

/-! ## Claim C8: loading the same document twice -/

/-- C8: two freshly constructed instances given the same document drive
the table to identical outcomes, field for field — the load is a pure
function of the document, the parser primitives and the per-machine
generated identity, with no other state.  (The generated `default_cid` is
modelled as fixed per machine, so both fresh instances carry the same
one; this covers documents that omit the cid and the identity-derived
service instance name.) -/
theorem load_deterministic (P : Parsers) (default_cid : Nat) (doc : Json)
    (c₁ c₂ : BrokerConfig) (h₁ : c₁ = freshConfig default_cid)
    (h₂ : c₂ = freshConfig default_cid) :
    runEntries doc (kSettingsValidatorArray P) c₁ =
      runEntries doc (kSettingsValidatorArray P) c₂ := by
  rw [h₁, h₂]

/-- Witness for C8 at a document that omits the generated-default
fields. -/
theorem load_deterministic_witness :
    runEntries (.obj [("uid", .obj [("type", .str "dynamic"), ("manufacturer_id", .uintNum 100)])])
        (kSettingsValidatorArray digitParsers) (freshConfig 7) =
      runEntries (.obj [("uid", .obj [("type", .str "dynamic"), ("manufacturer_id", .uintNum 100)])])
        (kSettingsValidatorArray digitParsers) (freshConfig 7) :=
  load_deterministic digitParsers 7 _ _ _ rfl rfl

/-! ## Claim C1: explicit null versus omitted key -/

/-- Every expected shape in the table is non-null, so a non-defaultable
null value always falls foul of the shape check. -/
theorem table_type_ne_null (P : Parsers) : ∀ e ∈ kSettingsValidatorArray P, e.type ≠ .null := by
  intro e he
  simp only [kSettingsValidatorArray, List.mem_cons, List.not_mem_nil, or_false] at he
  rcases he with rfl | rfl | rfl | rfl | rfl | rfl | rfl | rfl | rfl | rfl | rfl | rfl | rfl |
    rfl | rfl <;>
    simp [cidSetting, uidSetting, serviceInstanceNameSetting, dnsManufacturerSetting,
      dnsModelSetting, scopeSetting, listenPortSetting, listenMacsSetting, listenAddrsSetting,
      maxConnectionsSetting, maxControllersSetting, maxControllerMessagesSetting,
      maxDevicesSetting, maxDeviceMessagesSetting, maxRejectConnectionsSetting]

/-- C1 (amended): for a pointer all of whose table entries carry a
default-store operation, a document with an explicit null there loads
exactly like one with the key absent; but for an entry with no
default-store operation, an explicit null at its pointer makes the whole
load fail with `kInvalidSetting` (the null falls through to the shape
check), unlike omission. -/
theorem null_vs_absent (P : Parsers) (default_cid : Nat) (p : List String) (d d' : Json) :
    ((∀ e ∈ kSettingsValidatorArray P, e.pointer = p → e.store_default.isSome = true) →
      d.resolve p = some .null → d'.resolve p = none →
      (∀ e ∈ kSettingsValidatorArray P, e.pointer ≠ p →
        d.resolve e.pointer = d'.resolve e.pointer) →
      ValidateCurrent P default_cid d = ValidateCurrent P default_cid d') ∧
    (∀ e ∈ kSettingsValidatorArray P, e.pointer = p → e.store_default = none →
      d.resolve p = some .null →
      (ValidateCurrent P default_cid d).snd = .kInvalidSetting) := by
  constructor
  · intro hdef hnull habs hrest
    unfold ValidateCurrent
    apply runEntries_congr
    intro e he c
    by_cases hp : e.pointer = p
    · obtain ⟨f, hf⟩ := Option.isSome_iff_exists.mp (hdef e he hp)
      unfold stepEntry
      rw [hp, hnull, habs, hf]
      simp [Json.isNull]
    · exact stepEntry_ext e c (hrest e he hp)
  · intro e he hp hnone hnull
    apply runEntries_fails _ _ he
    intro c
    unfold stepEntry
    rw [hp, hnull, hnone]
    have htne := table_type_ne_null P e he
    simp [Json.isNull, Json.typeOf, Ne.symm htne]

/-- Counterexample to C1 as stated: `{"scope": null}` fails the load with
`kInvalidSetting` while `{}` loads fine — the scope entry has no
default-store operation, so its explicit null is not accepted. -/
theorem null_vs_absent_counterexample :
    (ValidateCurrent digitParsers 1 (.obj [("scope", .null)])).snd = .kInvalidSetting ∧
    (ValidateCurrent digitParsers 1 (.obj [])).snd = .kOk :=
  ⟨rfl, rfl⟩

/-- Witness for C1 (amended): `{"cid": null}` loads exactly like `{}`,
and `{"scope": null}` fails. -/
theorem null_vs_absent_witness :
    ValidateCurrent digitParsers 1 (.obj [("cid", .null)]) =
      ValidateCurrent digitParsers 1 (.obj []) ∧
    (ValidateCurrent digitParsers 1 (.obj [("scope", .null)])).snd = .kInvalidSetting := by
  constructor
  · apply (null_vs_absent digitParsers 1 ["cid"] (.obj [("cid", .null)]) (.obj [])).1
    · intro e he hp
      simp only [kSettingsValidatorArray, List.mem_cons, List.not_mem_nil, or_false] at he
      rcases he with rfl | rfl | rfl | rfl | rfl | rfl | rfl | rfl | rfl | rfl | rfl | rfl |
        rfl | rfl | rfl <;>
        first
          | rfl
          | (exfalso
             simp [cidSetting, uidSetting, serviceInstanceNameSetting, dnsManufacturerSetting,
               dnsModelSetting, scopeSetting, listenPortSetting, listenMacsSetting,
               listenAddrsSetting, maxConnectionsSetting, maxControllersSetting,
               maxControllerMessagesSetting, maxDevicesSetting, maxDeviceMessagesSetting,
               maxRejectConnectionsSetting] at hp)
    · rfl
    · rfl
    · intro e he hne
      simp only [kSettingsValidatorArray, List.mem_cons, List.not_mem_nil, or_false] at he
      rcases he with rfl | rfl | rfl | rfl | rfl | rfl | rfl | rfl | rfl | rfl | rfl | rfl |
        rfl | rfl | rfl <;>
        first
          | rfl
          | exact absurd rfl hne
  · exact (null_vs_absent digitParsers 1 ["scope"] (.obj [("scope", .null)]) (.obj [])).2
      scopeSetting (scopeSetting_mem digitParsers) rfl rfl rfl

/-! ## Claim C9: unrecognized keys -/

/-- Boolean path-prefix test. -/
def isPrefixOfB : List String → List String → Bool
  | [], _ => true
  | _ :: _, [] => false
  | a :: as, b :: bs => a = b && isPrefixOfB as bs

/-- Set (or add) the binding of `k` in an association list. -/
def assocSet (k : String) (v : Json) : List (String × Json) → List (String × Json)
  | [] => [(k, v)]
  | (k₂, v₂) :: rest => if k₂ = k then (k, v) :: rest else (k₂, v₂) :: assocSet k v rest

/-- Drop the first binding of `k` from an association list. -/
def assocErase (k : String) : List (String × Json) → List (String × Json)
  | [] => []
  | (k₂, v₂) :: rest => if k₂ = k then rest else (k₂, v₂) :: assocErase k rest

/-- Write value `v` at path `p` in a document, creating intermediate
objects as needed. -/
def setAtPath : Json → List String → Json → Json
  | _, [], v => v
  | .obj fields, k :: rest, v =>
      .obj (assocSet k (setAtPath ((assocLookup k fields).getD (.obj [])) rest v) fields)
  | _, k :: rest, v => .obj [(k, setAtPath (.obj []) rest v)]

/-- Remove the key at path `p` from a document, when present. -/
def removeAtPath : Json → List String → Json
  | d, [] => d
  | .obj fields, [k] => .obj (assocErase k fields)
  | .obj fields, k :: rest =>
      match assocLookup k fields with
      | some w => .obj (assocSet k (removeAtPath w rest) fields)
      | none => .obj fields
  | d, _ :: _ => d

/-- Looking up the key just set finds the new value. -/
theorem assocLookup_assocSet_self (k : String) (v : Json) (l : List (String × Json)) :
    assocLookup k (assocSet k v l) = some v := by
  induction l with
  | nil => simp [assocSet, assocLookup]
  | cons x rest ih =>
    rcases x with ⟨k₂, v₂⟩
    by_cases h : k₂ = k
    · simp [assocSet, assocLookup, h]
    · simp [assocSet, assocLookup, h, ih]

/-- Setting one key leaves lookups of other keys alone. -/
theorem assocLookup_assocSet_ne (k b : String) (hne : b ≠ k) (v : Json)
    (l : List (String × Json)) : assocLookup b (assocSet k v l) = assocLookup b l := by
  induction l with
  | nil => simp [assocSet, assocLookup, Ne.symm hne]
  | cons x rest ih =>
    rcases x with ⟨k₂, v₂⟩
    by_cases h : k₂ = k
    · subst h
      simp [assocSet, assocLookup, Ne.symm hne]
    · simp [assocSet, assocLookup, h, ih]

/-- Erasing one key leaves lookups of other keys alone. -/
theorem assocLookup_assocErase_ne (k b : String) (hne : b ≠ k)
    (l : List (String × Json)) : assocLookup b (assocErase k l) = assocLookup b l := by
  induction l with
  | nil => simp [assocErase]
  | cons x rest ih =>
    rcases x with ⟨k₂, v₂⟩
    by_cases h : k₂ = k
    · subst h
      simp [assocErase, assocLookup, Ne.symm hne]
    · simp [assocErase, assocLookup, h, ih]

/-- Writing at a path that neither extends nor prefixes `q` leaves the
resolution at `q` unchanged. -/
theorem resolve_setAtPath (p : List String) : ∀ (d v : Json) (q : List String),
    isPrefixOfB p q = false → isPrefixOfB q p = false →
    (setAtPath d p v).resolve q = d.resolve q := by
  induction p with
  | nil =>
    intro d v q h1 h2
    exact absurd h1 (by simp [isPrefixOfB])
  | cons a as ih =>
    intro d v q h1 h2
    cases q with
    | nil => exact absurd h2 (by simp [isPrefixOfB])
    | cons b bs =>
      by_cases hab : a = b
      · subst hab
        have h1' : isPrefixOfB as bs = false := by simpa [isPrefixOfB] using h1
        have h2' : isPrefixOfB bs as = false := by simpa [isPrefixOfB] using h2
        have hbs : bs ≠ [] := by
          intro h
          rw [h] at h2'
          simp [isPrefixOfB] at h2'
        have hnil : ∀ cs : List String, cs ≠ [] → (Json.obj []).resolve cs = none := by
          intro cs hcs
          cases cs with
          | nil => exact absurd rfl hcs
          | cons c cs₂ => simp [Json.resolve, assocLookup]
        cases d with
        | obj fields =>
          rcases hl : assocLookup a fields with _ | w
          · simp only [setAtPath, Json.resolve, assocLookup_assocSet_self, hl, Option.getD]
            rw [ih _ v bs h1' h2', hnil bs hbs]
          · simp only [setAtPath, Json.resolve, assocLookup_assocSet_self, hl, Option.getD]
            rw [ih _ v bs h1' h2']
        | null =>
          simp only [setAtPath, Json.resolve, assocLookup, if_true]
          rw [ih _ v bs h1' h2', hnil bs hbs]
        | boolean x =>
          simp only [setAtPath, Json.resolve, assocLookup, if_true]
          rw [ih _ v bs h1' h2', hnil bs hbs]
        | str x =>
          simp only [setAtPath, Json.resolve, assocLookup, if_true]
          rw [ih _ v bs h1' h2', hnil bs hbs]
        | intNum x =>
          simp only [setAtPath, Json.resolve, assocLookup, if_true]
          rw [ih _ v bs h1' h2', hnil bs hbs]
        | uintNum x =>
          simp only [setAtPath, Json.resolve, assocLookup, if_true]
          rw [ih _ v bs h1' h2', hnil bs hbs]
        | arr xs =>
          simp only [setAtPath, Json.resolve, assocLookup, if_true]
          rw [ih _ v bs h1' h2', hnil bs hbs]
      · have hba : b ≠ a := fun h => hab h.symm
        cases d with
        | obj fields =>
          simp only [setAtPath, Json.resolve, assocLookup_assocSet_ne a b hba]
        | null => simp [setAtPath, Json.resolve, assocLookup, hab]
        | boolean x => simp [setAtPath, Json.resolve, assocLookup, hab]
        | str x => simp [setAtPath, Json.resolve, assocLookup, hab]
        | intNum x => simp [setAtPath, Json.resolve, assocLookup, hab]
        | uintNum x => simp [setAtPath, Json.resolve, assocLookup, hab]
        | arr xs => simp [setAtPath, Json.resolve, assocLookup, hab]

/-- Removing at a path that neither extends nor prefixes `q` leaves the
resolution at `q` unchanged. -/
theorem resolve_removeAtPath (p : List String) : ∀ (d : Json) (q : List String),
    isPrefixOfB p q = false → isPrefixOfB q p = false →
    (removeAtPath d p).resolve q = d.resolve q := by
  induction p with
  | nil =>
    intro d q h1 h2
    exact absurd h1 (by simp [isPrefixOfB])
  | cons a as ih =>
    intro d q h1 h2
    cases q with
    | nil => exact absurd h2 (by simp [isPrefixOfB])
    | cons b bs =>
      by_cases hab : a = b
      · subst hab
        have h1' : isPrefixOfB as bs = false := by simpa [isPrefixOfB] using h1
        have h2' : isPrefixOfB bs as = false := by simpa [isPrefixOfB] using h2
        have has : as ≠ [] := by
          intro h
          rw [h] at h1'
          simp [isPrefixOfB] at h1'
        cases d with
        | obj fields =>
          cases as with
          | nil => exact absurd rfl has
          | cons c cs =>
            rcases hl : assocLookup a fields with _ | w
            · simp only [removeAtPath, hl]
            · simp only [removeAtPath, hl, Json.resolve, assocLookup_assocSet_self]
              rw [ih w bs h1' h2']
        | null => rfl
        | boolean x => rfl
        | str x => rfl
        | intNum x => rfl
        | uintNum x => rfl
        | arr xs => rfl
      · have hba : b ≠ a := fun h => hab h.symm
        cases d with
        | obj fields =>
          cases as with
          | nil =>
            simp only [removeAtPath, Json.resolve, assocLookup_assocErase_ne a b hba]
          | cons c cs =>
            rcases hl : assocLookup a fields with _ | w
            · simp only [removeAtPath, hl]
            · simp only [removeAtPath, hl, Json.resolve, assocLookup_assocSet_ne a b hba]
        | null => rfl
        | boolean x => rfl
        | str x => rfl
        | intNum x => rfl
        | uintNum x => rfl
        | arr xs => rfl

/-- C9 (amended): the load reads the document only through the fifteen
table pointers, so two documents agreeing at those pointers load
identically; and adding, changing or removing a value at a path that is
disjoint from every table pointer (neither a prefix of one nor an
extension of one) never changes the outcome. -/
theorem unrecognized_keys (P : Parsers) (default_cid : Nat) :
    (∀ (d d' : Json),
      (∀ e ∈ kSettingsValidatorArray P, d.resolve e.pointer = d'.resolve e.pointer) →
      ValidateCurrent P default_cid d = ValidateCurrent P default_cid d') ∧
    (∀ (d v : Json) (path : List String),
      (∀ e ∈ kSettingsValidatorArray P,
        isPrefixOfB path e.pointer = false ∧ isPrefixOfB e.pointer path = false) →
      ValidateCurrent P default_cid (setAtPath d path v) = ValidateCurrent P default_cid d ∧
      ValidateCurrent P default_cid (removeAtPath d path) = ValidateCurrent P default_cid d) := by
  have hcong : ∀ (d d' : Json),
      (∀ e ∈ kSettingsValidatorArray P, d.resolve e.pointer = d'.resolve e.pointer) →
      ValidateCurrent P default_cid d = ValidateCurrent P default_cid d' := by
    intro d d' h
    unfold ValidateCurrent
    apply runEntries_congr
    intro e he c
    exact stepEntry_ext e c (h e he)
  refine ⟨hcong, fun d v path hdisj => ⟨hcong _ _ ?_, hcong _ _ ?_⟩⟩
  · intro e he
    exact resolve_setAtPath path d v e.pointer (hdisj e he).1 (hdisj e he).2
  · intro e he
    exact resolve_removeAtPath path d e.pointer (hdisj e he).1 (hdisj e he).2

/-- A valid dynamic-uid document. -/
def uidDynDoc : Json :=
  .obj [("uid", .obj [("type", .str "dynamic"), ("manufacturer_id", .uintNum 100)])]

/-- Counterexample to C9 as stated: the path `/uid/device_id` equals no
schema-table entry's pointer, yet adding a value there flips the load of
a valid dynamic-uid document from `kOk` to `kInvalidSetting` (the uid
validator rejects a dynamic uid carrying a device id). -/
theorem unrecognized_keys_counterexample :
    (∀ e ∈ kSettingsValidatorArray digitParsers, e.pointer ≠ ["uid", "device_id"]) ∧
    (ValidateCurrent digitParsers 1
      (setAtPath uidDynDoc ["uid", "device_id"] (.uintNum 5))).snd = .kInvalidSetting ∧
    (ValidateCurrent digitParsers 1 uidDynDoc).snd = .kOk := by
  refine ⟨?_, rfl, rfl⟩
  intro e he
  simp only [kSettingsValidatorArray, List.mem_cons, List.not_mem_nil, or_false] at he
  rcases he with rfl | rfl | rfl | rfl | rfl | rfl | rfl | rfl | rfl | rfl | rfl | rfl | rfl |
    rfl | rfl <;>
    simp [cidSetting, uidSetting, serviceInstanceNameSetting, dnsManufacturerSetting,
      dnsModelSetting, scopeSetting, listenPortSetting, listenMacsSetting, listenAddrsSetting,
      maxConnectionsSetting, maxControllersSetting, maxControllerMessagesSetting,
      maxDevicesSetting, maxDeviceMessagesSetting, maxRejectConnectionsSetting]

/-- Witness for C9 (amended): adding an unrelated key, removing one, and
replacing one document with another agreeing at all table pointers all
leave the load unchanged. -/
theorem unrecognized_keys_witness :
    ValidateCurrent digitParsers 1
        (setAtPath (.obj [("listen_port", .uintNum 2000)]) ["custom_key"] (.uintNum 1)) =
      ValidateCurrent digitParsers 1 (.obj [("listen_port", .uintNum 2000)]) ∧
    ValidateCurrent digitParsers 1
        (removeAtPath (.obj [("listen_port", .uintNum 2000), ("extra", .boolean true)])
          ["extra"]) =
      ValidateCurrent digitParsers 1
        (.obj [("listen_port", .uintNum 2000), ("extra", .boolean true)]) ∧
    ValidateCurrent digitParsers 1 (.obj [("hello", .uintNum 1)]) =
      ValidateCurrent digitParsers 1 (.obj []) := by
  have hd1 : ∀ e ∈ kSettingsValidatorArray digitParsers,
      isPrefixOfB ["custom_key"] e.pointer = false ∧
      isPrefixOfB e.pointer ["custom_key"] = false := by decide
  have hd2 : ∀ e ∈ kSettingsValidatorArray digitParsers,
      isPrefixOfB ["extra"] e.pointer = false ∧
      isPrefixOfB e.pointer ["extra"] = false := by decide
  have hd3 : ∀ e ∈ kSettingsValidatorArray digitParsers,
      (Json.obj [("hello", .uintNum 1)]).resolve e.pointer =
        (Json.obj []).resolve e.pointer := by
    intro e he
    simp only [kSettingsValidatorArray, List.mem_cons, List.not_mem_nil, or_false] at he
    rcases he with rfl | rfl | rfl | rfl | rfl | rfl | rfl | rfl | rfl | rfl | rfl | rfl |
      rfl | rfl | rfl <;> rfl
  exact ⟨((unrecognized_keys digitParsers 1).2 _ (.uintNum 1) ["custom_key"] hd1).1,
    ((unrecognized_keys digitParsers 1).2 _ (.uintNum 1) ["extra"] hd2).2,
    (unrecognized_keys digitParsers 1).1 _ _ hd3⟩
